import Mathlib

/-!
Verification of the `ChatRoom` durable-object room coordinator
(`src/app/durableObjects/ChatRoom.server.ts`).

The coordinator is embedded shallowly: durable storage becomes an explicit
`RoomStorage` record, the live connection set becomes a `List Conn`, and each
handler becomes a pure function from a `RoomModel` (storage + alarm + live
connections) to an updated model together with a trace of externally visible
`Effect`s (channel sends, channel closes, lifecycle-service reports).  The
external meeting-lifecycle HTTP service is a parameter (`ExternalEnv`), and
`Date.now()` / `crypto.randomUUID()` are passed in as explicit arguments.
A connection whose `sendFails` flag is set models a channel whose `send`
throws; handlers that loop over broadcasts take a fuel argument because the
re-broadcast-after-failure loop of `broadcastMessage` is recursive through
the connection set.
-/

namespace Orange

/-- Sweep interval in milliseconds (`const alarmInterval = 15_000`). -/
def alarmInterval : Nat := 15000

/-- The `tracks` sub-record of a `User` (see `onConnect`, lines 160-165). -/
structure Tracks where
  audioEnabled : Bool
  audioUnavailable : Bool
  videoEnabled : Bool
  screenShareEnabled : Bool
deriving DecidableEq, Repr

/-- A stored `User` record (`~/types/Messages`, as constructed in `onConnect`). -/
structure User where
  id : String
  name : String
  joined : Bool
  raisedHand : Bool
  speaking : Bool
  tracks : Tracks
deriving DecidableEq, Repr

/-- A live channel.  `sendFails` models a connection whose `send` throws. -/
structure Conn where
  id : String
  sendFails : Bool
deriving DecidableEq, Repr

/-- Coordinator-to-client messages (`ServerMessage` union). -/
inductive ServerMessage where
  | roomState (meetingId : String) (users : List User)
  | error (error : String)
  | directMessage (fromName : String) (message : String)
  | muteMic
  | userLeftNotification (id : String)
deriving DecidableEq, Repr

/-- Client-to-coordinator messages (`ClientMessage` union). -/
inductive ClientMessage where
  | userLeft
  | userUpdate (user : User)
  | callsApiHistoryEntry (entry : String) (sessionId : String)
  | directMessage (toId : String) (message : String)
  | muteUser (id : String)
  | heartbeat
  | partyserverPing
deriving DecidableEq, Repr

/-- Externally visible actions of the coordinator: a send on a channel, a
channel close with a close code, or a `POST` to the lifecycle service
(`updateMeetingStats`). -/
inductive Effect where
  | send (connId : String) (msg : ServerMessage)
  | close (connId : String) (code : Nat)
  | report (roomId : String) (peakUsers : Nat) (status : String)
deriving DecidableEq, Repr

/-- Durable storage of one room: keys `roomCode`, `meetingId`,
`session-{id}` and `heartbeat-{id}` (the two prefixed families are kept as
association lists keyed by the channel id). -/
structure RoomStorage where
  roomCode : Option String
  meetingId : Option String
  sessions : List (String × User)
  heartbeats : List (String × Nat)
deriving DecidableEq, Repr

/-- Full coordinator state: durable storage, the scheduled alarm (which
Cloudflare keeps separate from `deleteAll`), and the live connection set. -/
structure RoomModel where
  storage : RoomStorage
  alarm : Option Nat
  conns : List Conn
deriving DecidableEq, Repr

/-- The status values the lifecycle service reports
(`'planned' | 'started' | 'done' | 'cancelled' | 'no_show'`). -/
inductive MeetingStatus where
  | planned
  | started
  | done
  | cancelled
  | noShow
deriving DecidableEq, Repr

/-- The wire spelling of each status value. -/
def statusString : MeetingStatus → String
  | MeetingStatus.planned => "planned"
  | MeetingStatus.started => "started"
  | MeetingStatus.done => "done"
  | MeetingStatus.cancelled => "cancelled"
  | MeetingStatus.noShow => "no_show"

/-- The `data` payload of `GET /meeting/room/{roomCode}`. -/
structure MeetingData where
  roomId : String
  peakUsers : Nat
  status : MeetingStatus
deriving DecidableEq, Repr

/-- The external lifecycle service: `lookupRoom` is the `GET` endpoint used
by `isRoomValid`; `none` models a non-`ok` response. -/
structure ExternalEnv where
  lookupRoom : String → Option MeetingData

/-- The local meeting object built by `getMeeting` (lines 240-245). -/
structure Meeting where
  roomId : String
  ended : Bool
  peakUserCount : Nat
  id : String
deriving DecidableEq, Repr

/-- A fragment of JavaScript runtime values, used to embed the strict
comparison `meeting.ended !== null` (line 195) without deciding it away. -/
inductive JsVal where
  | null
  | bool (b : Bool)
deriving DecidableEq, Repr

/-- JavaScript strict inequality against `null`. -/
def jsStrictNeNull : JsVal → Bool
  | JsVal.null => false
  | JsVal.bool _ => true

/-- Storage after `ctx.storage.deleteAll()`. -/
def emptyStorage : RoomStorage :=
  { roomCode := none, meetingId := none, sessions := [], heartbeats := [] }

/-- `ctx.storage.get<User>('session-' + id)`. -/
def lookupSession (s : RoomStorage) (id : String) : Option User :=
  (s.sessions.find? (fun p => p.1 = id)).map Prod.snd

/-- `ctx.storage.get<number>('heartbeat-' + id)`. -/
def lookupHeartbeat (s : RoomStorage) (id : String) : Option Nat :=
  (s.heartbeats.find? (fun p => p.1 = id)).map Prod.snd

/-- `ctx.storage.delete('session-' + id)`. -/
def deleteSession (s : RoomStorage) (id : String) : RoomStorage :=
  { s with sessions := s.sessions.filter (fun p => p.1 ≠ id) }

/-- `ctx.storage.delete('heartbeat-' + id)`. -/
def deleteHeartbeat (s : RoomStorage) (id : String) : RoomStorage :=
  { s with heartbeats := s.heartbeats.filter (fun p => p.1 ≠ id) }

/-- `ctx.storage.put('session-' + id, u)`: overwrite in place when the key
exists, append otherwise. -/
def putSession (s : RoomStorage) (id : String) (u : User) : RoomStorage :=
  if s.sessions.any (fun p => p.1 = id) then
    { s with sessions := s.sessions.map (fun p => if p.1 = id then (id, u) else p) }
  else
    { s with sessions := s.sessions ++ [(id, u)] }

/-- `ctx.storage.put('heartbeat-' + id, t)`. -/
def putHeartbeat (s : RoomStorage) (id : String) (t : Nat) : RoomStorage :=
  if s.heartbeats.any (fun p => p.1 = id) then
    { s with heartbeats := s.heartbeats.map (fun p => if p.1 = id then (id, t) else p) }
  else
    { s with heartbeats := s.heartbeats ++ [(id, t)] }

/-- The message that `broadcastRoomState` fans out (lines 278-296): an error
payload when no `meetingId` is stored, the `roomState` snapshot otherwise. -/
def roomStateMessage (s : RoomStorage) : ServerMessage :=
  match s.meetingId with
  | none => ServerMessage.error "No meetingId found, closing connection"
  | some mid => ServerMessage.roomState mid (s.sessions.map Prod.snd)

/-- The fan-out loop of `broadcastMessage` (lines 256-270): iterate the
snapshot of connections; a failing send closes the channel with 1011, deletes
its `session-` record and sets the `didSomeoneQuit` flag. -/
def broadcastLoop (msg : ServerMessage) (excluded : Option String) :
    List Conn → RoomModel → RoomModel × List Effect × Bool
  | [], m => (m, [], false)
  | c :: rest, m =>
    if excluded = some c.id then
      broadcastLoop msg excluded rest m
    else if c.sendFails then
      let m1 : RoomModel :=
        { m with
          conns := m.conns.filter (fun d => d ≠ c),
          storage := deleteSession m.storage c.id }
      let r := broadcastLoop msg excluded rest m1
      (r.1, Effect.close c.id 1011 :: r.2.1, true)
    else
      let r := broadcastLoop msg excluded rest m
      (r.1, Effect.send c.id msg :: r.2.1, r.2.2)

/-- `broadcastMessage` (lines 248-276): fan out, and when some channel
failed, fan the freshly recomputed room state out once more.  The recursion
through the follow-up `broadcastRoomState` is bounded by `fuel`; each round
removes the channels that failed, so any `fuel` at least the number of
failing channels plus one is enough. -/
def broadcastMessage (fuel : Nat) (m : RoomModel) (msg : ServerMessage)
    (excluded : Option String) : RoomModel × List Effect :=
  let r := broadcastLoop msg excluded m.conns m
  if r.2.2 then
    match fuel with
    | 0 => (r.1, r.2.1)
    | f + 1 =>
      let r2 := broadcastMessage f r.1 (roomStateMessage r.1.storage) none
      (r2.1, r.2.1 ++ r2.2)
  else (r.1, r.2.1)

/-- `broadcastRoomState` (lines 278-296). -/
def broadcastRoomState (fuel : Nat) (m : RoomModel) : RoomModel × List Effect :=
  broadcastMessage fuel m (roomStateMessage m.storage) none

/-- `userLeftNotification` (lines 497-502). -/
def userLeftNotification (fuel : Nat) (m : RoomModel) (id : String) :
    RoomModel × List Effect :=
  broadcastMessage fuel m (ServerMessage.userLeftNotification id) none

/-- `isRoomValid` (lines 41-58): a `null` room code is a 400 response; the
result of the `GET` is `some` data exactly when the response was `ok`. -/
def isRoomValid (env : ExternalEnv) (roomCode : Option String) :
    Option MeetingData :=
  match roomCode with
  | none => none
  | some rc => env.lookupRoom rc

/-- `getMeeting` (lines 216-246).  The membership list is spelled exactly as
in the source: `["done", "canceled", "no_show"]`. -/
def getMeeting (env : ExternalEnv) (s : RoomStorage) (meetingId : String) :
    Option Meeting :=
  match s.roomCode with
  | none => none
  | some roomCode =>
    match isRoomValid env (some roomCode) with
    | none => none
    | some d =>
      some
        { roomId := roomCode
          ended := ["done", "canceled", "no_show"].contains (statusString d.status)
          peakUserCount := d.peakUsers
          id := meetingId }

/-- `createMeeting` (lines 209-214): persist a fresh meeting id, then read the
meeting back. -/
def createMeeting (env : ExternalEnv) (freshId : String) (m : RoomModel) :
    RoomModel × Option Meeting :=
  let m1 : RoomModel :=
    { m with storage := { m.storage with meetingId := some freshId } }
  (m1, getMeeting env m1.storage freshId)

/-- `endMeeting` (lines 478-495): read the room code, wipe all storage
(`deleteAll` does not clear the alarm), then report
`{peakUsers, status:'done'}` — the peak is read through `getMeeting` on the
already-wiped storage, so it degrades to `0`. -/
def endMeeting (env : ExternalEnv) (m : RoomModel) (meetingId : String) :
    RoomModel × List Effect :=
  let roomCode := m.storage.roomCode
  let m1 : RoomModel := { m with storage := emptyStorage }
  match roomCode with
  | none => (m1, [])
  | some rc =>
    let meeting := getMeeting env m1.storage meetingId
    (m1, [Effect.report rc ((meeting.map Meeting.peakUserCount).getD 0) "done"])

/-- `heartbeat === undefined || heartbeat + alarmInterval < now` (line 517). -/
def isStale (hb : Option Nat) (now : Nat) : Bool :=
  match hb with
  | none => true
  | some h => decide (h + alarmInterval < now)

/-- The per-user eviction loop of `cleanupOldConnections` (lines 512-532):
for every stored `User` whose heartbeat is absent or stale, broadcast the
departure, delete the `session-` record (the heartbeat record is left
behind), and force-close the live channel with that id when the snapshot
taken at loop entry still holds one. -/
def cleanupLoop (fuel : Nat) (now : Nat) (snap : List Conn) :
    List (String × User) → RoomModel → RoomModel × List Effect × Nat
  | [], m => (m, [], 0)
  | (k, _u) :: rest, m =>
    if isStale (lookupHeartbeat m.storage k) now then
      let r1 := userLeftNotification fuel m k
      let m2 : RoomModel := { r1.1 with storage := deleteSession r1.1.storage k }
      let closeStep : RoomModel × List Effect :=
        match snap.find? (fun c => c.id = k) with
        | some c =>
          ({ m2 with conns := m2.conns.filter (fun d => d ≠ c) },
           [Effect.close c.id 1011])
        | none => (m2, [])
      let r2 := cleanupLoop fuel now snap rest closeStep.1
      (r2.1, r1.2 ++ closeStep.2 ++ r2.2.1, r2.2.2 + 1)
    else
      cleanupLoop fuel now snap rest m

/-- `cleanupOldConnections` (lines 504-543): sweep every stored user, then
either end the meeting (room empty and a meeting id exists) or re-broadcast
the roster when users were evicted; returns the active user count. -/
def cleanupOldConnections (fuel : Nat) (env : ExternalEnv) (now : Nat)
    (m : RoomModel) : RoomModel × List Effect × Nat :=
  let meetingId := m.storage.meetingId
  let users := m.storage.sessions
  let snap := m.conns
  let r := cleanupLoop fuel now snap users m
  let activeUserCount := r.1.storage.sessions.length
  match meetingId with
  | some mid =>
    if activeUserCount = 0 then
      let r2 := endMeeting env r.1 mid
      (r2.1, r.2.1 ++ r2.2, activeUserCount)
    else if 0 < r.2.2 then
      let r2 := broadcastRoomState fuel r.1
      (r2.1, r.2.1 ++ r2.2, activeUserCount)
    else (r.1, r.2.1, activeUserCount)
  | none =>
    if 0 < r.2.2 then
      let r2 := broadcastRoomState fuel r.1
      (r2.1, r.2.1 ++ r2.2, activeUserCount)
    else (r.1, r.2.1, activeUserCount)

/-- `alarm` (lines 545-553): sweep, broadcast the room state, and rearm the
timer only when the room is not empty.  The theorems take the model at the
instant the timer fired, i.e. with no alarm currently scheduled. -/
def alarmHandler (fuel : Nat) (env : ExternalEnv) (now : Nat) (m : RoomModel) :
    RoomModel × List Effect :=
  let r := cleanupOldConnections fuel env now m
  let r2 := broadcastRoomState fuel r.1
  if r.2.2 ≠ 0 then
    ({ r2.1 with alarm := some (now + alarmInterval) }, r.2.1 ++ r2.2)
  else (r2.1, r.2.1 ++ r2.2)

/-- `trackPeakUserCount` (lines 182-203): fetch (or create) the meeting,
sweep, then report `{peakUsers: meeting.peakUserCount, status:'started'}`
when `userCount > previousCount || meeting.ended !== null` — with `ended` a
boolean, embedded through `jsStrictNeNull`. -/
def trackPeakUserCount (fuel : Nat) (env : ExternalEnv) (now : Nat)
    (freshId : String) (m : RoomModel) : RoomModel × List Effect :=
  let mr : RoomModel × Option Meeting :=
    match m.storage.meetingId with
    | some mid => (m, getMeeting env m.storage mid)
    | none => createMeeting env freshId m
  let r := cleanupOldConnections fuel env now mr.1
  match mr.2 with
  | none => (r.1, r.2.1)
  | some meeting =>
    let previousCount := meeting.peakUserCount
    let userCount := r.1.storage.sessions.length
    if decide (previousCount < userCount) || jsStrictNeNull (JsVal.bool meeting.ended) then
      (r.1, r.2.1 ++ [Effect.report meeting.roomId meeting.peakUserCount "started"])
    else (r.1, r.2.1)

/-- The default `User` built for a fresh channel id (lines 154-166). -/
def defaultUser (connId username : String) : User :=
  { id := connId
    name := username
    joined := false
    raisedHand := false
    speaking := false
    tracks :=
      { audioEnabled := false
        audioUnavailable := false
        videoEnabled := false
        screenShareEnabled := false } }

/-- `onConnect` (lines 117-180).  The room code extracted from the request
URL is the `roomCode` argument; the connecting channel is already a member of
`m.conns`.  An invalid room gets a structured error then a 4004 close and the
handler returns without touching the roster. -/
def onConnect (fuel : Nat) (env : ExternalEnv) (now : Nat) (freshId : String)
    (username : String) (connId : String) (roomCode : Option String)
    (m : RoomModel) : RoomModel × List Effect :=
  let m0 : RoomModel :=
    match roomCode, m.storage.roomCode with
    | some rc, none => { m with storage := { m.storage with roomCode := some rc } }
    | _, _ => m
  match isRoomValid env roomCode with
  | none =>
    ({ m0 with conns := m0.conns.filter (fun c => c.id ≠ connId) },
     [Effect.send connId (ServerMessage.error "Room invalid"),
      Effect.close connId 4004])
  | some _ =>
    let m1 : RoomModel :=
      match m0.alarm with
      | none => { m0 with alarm := some (now + alarmInterval) }
      | some _ => m0
    let user :=
      match lookupSession m1.storage connId with
      | some u => u
      | none => defaultUser connId username
    let m2 : RoomModel :=
      { m1 with storage := putHeartbeat (putSession m1.storage connId user) connId now }
    let r := trackPeakUserCount fuel env now freshId m2
    let r2 := broadcastRoomState fuel r.1
    (r2.1, r.2 ++ r2.2)

/-- `onMessage` (lines 315-454).  Accessing a missing sender record through
the non-null assertion `fromUser!`/`user!` throws and lands in the handler's
catch block, which sends the sender an error payload; that payload's text is
modelled abstractly. -/
def onMessage (fuel : Nat) (now : Nat) (connId : String) (msg : ClientMessage)
    (m : RoomModel) : RoomModel × List Effect :=
  match msg with
  | ClientMessage.userLeft =>
    let m1 : RoomModel := { m with conns := m.conns.filter (fun c => c.id ≠ connId) }
    let r1 := userLeftNotification fuel m1 connId
    let m2 : RoomModel :=
      { r1.1 with storage := deleteHeartbeat (deleteSession r1.1.storage connId) connId }
    let r2 := broadcastRoomState fuel m2
    (r2.1, Effect.close connId 1000 :: r1.2 ++ r2.2)
  | ClientMessage.userUpdate user =>
    let m1 : RoomModel := { m with storage := putSession m.storage connId user }
    broadcastRoomState fuel m1
  | ClientMessage.callsApiHistoryEntry _ _ => (m, [])
  | ClientMessage.directMessage toId message =>
    match lookupSession m.storage connId with
    | none =>
      (m, [Effect.send connId (ServerMessage.error "TypeError: sender record missing")])
    | some fromUser =>
      match m.conns.find? (fun c => c.id = toId) with
      | some c =>
        if c.sendFails then
          (m, [Effect.send connId (ServerMessage.error "Failed to send directMessage")])
        else
          (m, [Effect.send c.id (ServerMessage.directMessage fromUser.name message)])
      | none => (m, [])
  | ClientMessage.muteUser targetId =>
    let senderUser := lookupSession m.storage connId
    match m.conns.find? (fun c => c.id = targetId) with
    | some c =>
      match lookupSession m.storage targetId with
      | none =>
        (m, [Effect.send connId (ServerMessage.error "TypeError: target record missing")])
      | some otherUser =>
        let muted : User :=
          { otherUser with
            tracks := { otherUser.tracks with audioEnabled := false } }
        let m1 : RoomModel :=
          { m with storage := putSession m.storage targetId muted }
        if c.sendFails then
          (m1, [Effect.send connId (ServerMessage.error "Failed to send muteMic")])
        else
          let r := broadcastRoomState fuel m1
          (r.1, Effect.send c.id ServerMessage.muteMic :: r.2)
    | none =>
      match senderUser with
      | some _ => (m, [])
      | none =>
        (m, [Effect.send connId (ServerMessage.error "TypeError: sender record missing")])
  | ClientMessage.heartbeat =>
    ({ m with storage := putHeartbeat m.storage connId now }, [])
  | ClientMessage.partyserverPing => (m, [])

/-- Number of `directMessage` sends addressed to channel `cid` in a trace. -/
def dmCount (effs : List Effect) (cid : String) : Nat :=
  effs.countP (fun e =>
    match e with
    | Effect.send c (ServerMessage.directMessage _ _) => decide (c = cid)
    | _ => false)

/-! ### Concrete fixtures used by witnesses and counterexamples -/

/-- A lifecycle service that knows no room. -/
def envNone : ExternalEnv := { lookupRoom := fun _ => none }

/-- A lifecycle service reporting a fixed status and peak for every room. -/
def envWith (st : MeetingStatus) (peak : Nat) : ExternalEnv :=
  { lookupRoom := fun _ => some { roomId := "r", peakUsers := peak, status := st } }

def uAlice : User := defaultUser "a" "Alice"

def uBob : User := defaultUser "b" "Bob"

/-- Two-user room: at time 20000 user `a`'s heartbeat (0) is stale and user
`b`'s heartbeat (10000) is fresh. -/
def mAB : RoomModel :=
  { storage :=
      { roomCode := some "rc"
        meetingId := some "mid"
        sessions := [("a", uAlice), ("b", uBob)]
        heartbeats := [("a", 0), ("b", 10000)] }
    alarm := none
    conns := [{ id := "a", sendFails := false }, { id := "b", sendFails := false }] }

/-- Storage holding only a room code and meeting id. -/
def stR : RoomStorage :=
  { roomCode := some "r", meetingId := some "m", sessions := [], heartbeats := [] }

/-- One-user room with a fresh heartbeat at time 100. -/
def mSolo : RoomModel :=
  { storage :=
      { roomCode := some "rc"
        meetingId := some "mid"
        sessions := [("a", uAlice)]
        heartbeats := [("a", 100)] }
    alarm := none
    conns := [{ id := "a", sendFails := false }] }

/-- Room whose channel `a` fails on send while channel `b` succeeds. -/
def mFail : RoomModel :=
  { storage :=
      { roomCode := some "rc"
        meetingId := some "mid"
        sessions := [("a", uAlice), ("b", uBob)]
        heartbeats := [("a", 5), ("b", 7)] }
    alarm := none
    conns := [{ id := "a", sendFails := true }, { id := "b", sendFails := false }] }

def uSam : User := defaultUser "s" "Sam"

/-- Three-user room at time 20000: users `a` (heartbeat 0) and `b`
(heartbeat 100) are stale, user `s` (heartbeat 10000) is fresh; all three
channels are live and working. -/
def mABS : RoomModel :=
  { storage :=
      { roomCode := some "rc"
        meetingId := some "mid"
        sessions := [("a", uAlice), ("b", uBob), ("s", uSam)]
        heartbeats := [("a", 0), ("b", 100), ("s", 10000)] }
    alarm := none
    conns := [{ id := "a", sendFails := false }, { id := "b", sendFails := false },
      { id := "s", sendFails := false }] }

/-- One-user room whose single user is stale at time 20000, with a stored
meeting id, exercising the empty-room branch of the sweep. -/
def mStaleOnly : RoomModel :=
  { storage :=
      { roomCode := some "rc"
        meetingId := some "mid"
        sessions := [("a", uAlice)]
        heartbeats := [("a", 0)] }
    alarm := none
    conns := [{ id := "a", sendFails := false }] }

/-- Room with no meeting id stored. -/
def mNoMid : RoomModel :=
  { storage :=
      { roomCode := some "rc"
        meetingId := none
        sessions := [("a", uAlice)]
        heartbeats := [("a", 5)] }
    alarm := none
    conns := [{ id := "a", sendFails := false }] }

/-! ### Helper lemmas about the broadcast fan-out -/

lemma broadcastLoop_noFail (msg : ServerMessage) :
    ∀ (conns : List Conn) (m : RoomModel),
      (∀ c ∈ conns, c.sendFails = false) →
      broadcastLoop msg none conns m =
        (m, conns.map (fun c => Effect.send c.id msg), false)
  | [], _, _ => rfl
  | c :: rest, m, h => by
    have hc : c.sendFails = false := h c (List.mem_cons_self _ _)
    have hrest : ∀ d ∈ rest, d.sendFails = false :=
      fun d hd => h d (List.mem_cons_of_mem _ hd)
    simp [broadcastLoop, hc, broadcastLoop_noFail msg rest m hrest]

lemma broadcastMessage_noFail (fuel : Nat) (m : RoomModel) (msg : ServerMessage)
    (h : ∀ c ∈ m.conns, c.sendFails = false) :
    broadcastMessage fuel m msg none =
      (m, m.conns.map (fun c => Effect.send c.id msg)) := by
  unfold broadcastMessage
  rw [broadcastLoop_noFail msg m.conns m h]
  simp

lemma broadcastRoomState_noFail (fuel : Nat) (m : RoomModel)
    (h : ∀ c ∈ m.conns, c.sendFails = false) :
    broadcastRoomState fuel m =
      (m, m.conns.map (fun c => Effect.send c.id (roomStateMessage m.storage))) :=
  broadcastMessage_noFail fuel m _ h

lemma conns_filter_step (c : Conn) (rest : List Conn) (l : List Conn)
    (hc : c.sendFails = true) :
    (l.filter (fun d => d ≠ c)).filter
        (fun d => !(decide (d ∈ rest) && d.sendFails)) =
      l.filter (fun d => !(decide (d ∈ c :: rest) && d.sendFails)) := by
  rw [List.filter_filter]
  apply List.filter_congr
  intro d _
  by_cases hdc : d = c
  · subst hdc
    simp [hc]
  · simp [hdc, List.mem_cons]

lemma conns_filter_step_ok (c : Conn) (rest : List Conn) (l : List Conn)
    (hc : c.sendFails = false) :
    l.filter (fun d => !(decide (d ∈ rest) && d.sendFails)) =
      l.filter (fun d => !(decide (d ∈ c :: rest) && d.sendFails)) := by
  apply List.filter_congr
  intro d _
  by_cases hdc : d = c
  · subst hdc
    simp [hc]
  · simp [hdc, List.mem_cons]

lemma sessions_filter_step (c : Conn) (rest : List Conn)
    (l : List (String × User)) (hc : c.sendFails = true) :
    (l.filter (fun p => p.1 ≠ c.id)).filter
        (fun p => !(decide (p.1 ∈ (rest.filter (fun x => x.sendFails)).map Conn.id))) =
      l.filter
        (fun p => !(decide (p.1 ∈ ((c :: rest).filter (fun x => x.sendFails)).map Conn.id))) := by
  rw [List.filter_filter]
  apply List.filter_congr
  intro p _
  have hsplit : (c :: rest).filter (fun x => x.sendFails) =
      c :: rest.filter (fun x => x.sendFails) := by
    simp [List.filter_cons, hc]
  rw [hsplit]
  by_cases hpc : p.1 = c.id
  · simp [hpc]
  · simp [hpc, List.mem_cons]

/-- Full characterization of one fan-out round over a snapshot `conns` with
no excluded connection: the surviving connections, the surviving `session-`
records, the per-channel effects and the `didSomeoneQuit` flag. -/
lemma broadcastLoop_spec (msg : ServerMessage) :
    ∀ (conns : List Conn) (m : RoomModel),
      broadcastLoop msg none conns m =
        ({ m with
           conns := m.conns.filter (fun d => !(decide (d ∈ conns) && d.sendFails)),
           storage := { m.storage with
             sessions := m.storage.sessions.filter
               (fun p =>
                 !(decide (p.1 ∈ (conns.filter (fun c => c.sendFails)).map Conn.id))) } },
         conns.map (fun c =>
           if c.sendFails then Effect.close c.id 1011 else Effect.send c.id msg),
         conns.any (fun c => c.sendFails))
  | [], m => by
    simp [broadcastLoop]
  | c :: rest, m => by
    by_cases hc : c.sendFails
    · have ih := broadcastLoop_spec msg rest
        { m with
          conns := m.conns.filter (fun d => d ≠ c),
          storage := deleteSession m.storage c.id }
      simp only [broadcastLoop, reduceCtorEq, if_false, hc, if_true, ih]
      simp only [deleteSession]
      rw [conns_filter_step c rest m.conns hc,
        sessions_filter_step c rest m.storage.sessions hc]
      simp [hc]
    · have hc' : c.sendFails = false := by simpa using hc
      have ih := broadcastLoop_spec msg rest m
      simp only [broadcastLoop, reduceCtorEq, if_false, hc', Bool.false_eq_true, ih]
      rw [conns_filter_step_ok c rest m.conns hc']
      have hsplit : (c :: rest).filter (fun x => x.sendFails) =
          rest.filter (fun x => x.sendFails) := by
        simp [List.filter_cons, hc']
      rw [← hsplit]
      simp [hc']

lemma key_filter_step (f : String → Bool) (k : String) (ks : List String)
    (l : List (String × User)) (hk : f k = true) :
    (l.filter (fun p => p.1 ≠ k)).filter
        (fun p => !(f p.1 && decide (p.1 ∈ ks))) =
      l.filter (fun p => !(f p.1 && decide (p.1 ∈ k :: ks))) := by
  rw [List.filter_filter]
  apply List.filter_congr
  intro p _
  by_cases hpk : p.1 = k
  · simp [hpk, hk]
  · simp [hpk, List.mem_cons]

lemma key_filter_step_ok (f : String → Bool) (k : String) (ks : List String)
    (l : List (String × User)) (hk : f k = false) :
    l.filter (fun p => !(f p.1 && decide (p.1 ∈ ks))) =
      l.filter (fun p => !(f p.1 && decide (p.1 ∈ k :: ks))) := by
  apply List.filter_congr
  intro p _
  by_cases hpk : p.1 = k
  · simp [hpk, hk]
  · simp [hpk, List.mem_cons]

/-- Characterization of the eviction loop when every live channel's send
succeeds: heartbeats, meeting id, room code and alarm are untouched, the
surviving `session-` records are exactly the entries whose key is not stale
(or not visited), surviving channels come from `m.conns`, and every stale
visited key got a departure notification to each surviving channel plus a
1011 close when the snapshot held a channel with that id. -/
lemma cleanupLoop_spec (fuel now : Nat) (snap : List Conn) :
    ∀ (users : List (String × User)) (m : RoomModel),
      (∀ c ∈ m.conns, c.sendFails = false) →
      ((cleanupLoop fuel now snap users m).1.storage.heartbeats = m.storage.heartbeats ∧
        (cleanupLoop fuel now snap users m).1.storage.meetingId = m.storage.meetingId ∧
        (cleanupLoop fuel now snap users m).1.storage.roomCode = m.storage.roomCode ∧
        (cleanupLoop fuel now snap users m).1.alarm = m.alarm) ∧
      (cleanupLoop fuel now snap users m).1.storage.sessions =
        m.storage.sessions.filter
          (fun p => !(isStale (lookupHeartbeat m.storage p.1) now &&
                      decide (p.1 ∈ users.map Prod.fst))) ∧
      (∀ c ∈ (cleanupLoop fuel now snap users m).1.conns,
        c ∈ m.conns ∧ c.sendFails = false) ∧
      (∀ ku ∈ users, isStale (lookupHeartbeat m.storage ku.1) now = true →
        (snap.any (fun c => c.id = ku.1) = true →
          Effect.close ku.1 1011 ∈ (cleanupLoop fuel now snap users m).2.1) ∧
        (∀ c ∈ m.conns,
          ¬(isStale (lookupHeartbeat m.storage c.id) now = true ∧
            c.id ∈ users.map Prod.fst) →
          Effect.send c.id (ServerMessage.userLeftNotification ku.1) ∈
            (cleanupLoop fuel now snap users m).2.1))
  | [], m, hnf => by
    refine ⟨⟨rfl, rfl, rfl, rfl⟩, ?_, ?_, ?_⟩
    · simp [cleanupLoop]
    · intro c hc
      exact ⟨hc, hnf c hc⟩
    · intro ku hku
      simp at hku
  | (k, u) :: rest, m, hnf => by
    by_cases hk : isStale (lookupHeartbeat m.storage k) now
    · -- the head entry is stale and gets evicted
      rcases hfind : snap.find? (fun c => c.id = k) with _ | c
      · -- no live channel with this id in the snapshot
        obtain ⟨⟨ihb, imid, irc, ial⟩, isess, iconn, ieff⟩ :=
          cleanupLoop_spec fuel now snap rest
            { m with storage := deleteSession m.storage k } hnf
        simp only [cleanupLoop, hk, if_true, userLeftNotification,
          broadcastMessage_noFail fuel m _ hnf, hfind]
        refine ⟨⟨ihb, imid, irc, ial⟩, ?_, ?_, ?_⟩
        · rw [isess]
          simp only [List.map_cons]
          exact key_filter_step (fun x => isStale (lookupHeartbeat m.storage x) now)
            k (rest.map Prod.fst) m.storage.sessions hk
        · intro c hc
          exact iconn c hc
        · intro ku hku hstale
          rcases List.mem_cons.mp hku with hku | hku
          · subst hku
            constructor
            · intro hany
              rcases List.any_eq_true.mp hany with ⟨c, hcmem, hcid⟩
              have := List.find?_eq_none.mp hfind c hcmem
              exact absurd hcid this
            · intro c hc _
              simp only [List.append_nil, List.mem_append]
              exact Or.inl (List.mem_map_of_mem _ hc)
          · have hrest := ieff ku hku hstale
            constructor
            · intro hany
              simp only [List.append_nil, List.mem_append]
              exact Or.inr (hrest.1 hany)
            · intro c hc hguard
              simp only [List.append_nil, List.mem_append]
              refine Or.inr (hrest.2 c hc ?_)
              intro hsm
              exact hguard ⟨hsm.1, List.mem_cons_of_mem _ hsm.2⟩
      · -- a live channel with this id is force-closed
        obtain ⟨⟨ihb, imid, irc, ial⟩, isess, iconn, ieff⟩ :=
          cleanupLoop_spec fuel now snap rest
            { m with
              storage := deleteSession m.storage k,
              conns := m.conns.filter (fun d => d ≠ c) } (by
                intro d hd
                exact hnf d (List.mem_of_mem_filter hd))
        have hcid : c.id = k := by
          have := List.find?_some hfind
          simpa using this
        simp only [cleanupLoop, hk, if_true, userLeftNotification,
          broadcastMessage_noFail fuel m _ hnf, hfind]
        refine ⟨⟨ihb, imid, irc, ial⟩, ?_, ?_, ?_⟩
        · rw [isess]
          simp only [List.map_cons]
          exact key_filter_step (fun x => isStale (lookupHeartbeat m.storage x) now)
            k (rest.map Prod.fst) m.storage.sessions hk
        · intro d hd
          obtain ⟨hdm, hds⟩ := iconn d hd
          exact ⟨List.mem_of_mem_filter hdm, hds⟩
        · intro ku hku hstale
          rcases List.mem_cons.mp hku with hku | hku
          · subst hku
            constructor
            · intro _
              simp only [List.mem_append]
              refine Or.inl (Or.inr ?_)
              simp [hcid]
            · intro d hd _
              simp only [List.mem_append]
              exact Or.inl (Or.inl (List.mem_map_of_mem _ hd))
          · have hrest := ieff ku hku hstale
            constructor
            · intro hany
              simp only [List.mem_append]
              exact Or.inr (hrest.1 hany)
            · intro d hd hguard
              simp only [List.mem_append]
              have hdc : d ≠ c := by
                intro hdc
                subst hdc
                refine hguard ⟨?_, ?_⟩
                · rw [hcid]
                  exact hk
                · rw [hcid]
                  simp
              refine Or.inr (hrest.2 d ?_ ?_)
              · exact List.mem_filter.mpr ⟨hd, by simp [hdc]⟩
              · intro hsm
                exact hguard ⟨hsm.1, List.mem_cons_of_mem _ hsm.2⟩
    · -- the head entry has a fresh heartbeat and is skipped
      have hk' : isStale (lookupHeartbeat m.storage k) now = false := by
        simpa using hk
      obtain ⟨ifields, isess, iconn, ieff⟩ := cleanupLoop_spec fuel now snap rest m hnf
      simp only [cleanupLoop, hk', Bool.false_eq_true, if_false]
      refine ⟨ifields, ?_, iconn, ?_⟩
      · rw [isess]
        simp only [List.map_cons]
        exact key_filter_step_ok (fun x => isStale (lookupHeartbeat m.storage x) now)
          k (rest.map Prod.fst) m.storage.sessions hk'
      · intro ku hku hstale
        rcases List.mem_cons.mp hku with hku | hku
        · subst hku
          exact absurd hstale (by simp [hk'])
        · have hrest := ieff ku hku hstale
          refine ⟨hrest.1, ?_⟩
          intro c hc hguard
          refine hrest.2 c hc ?_
          intro hsm
          exact hguard ⟨hsm.1, List.mem_cons_of_mem _ hsm.2⟩

/-- Restricted to the visited entries, the visited-key conjunct of the
eviction filter is redundant. -/
lemma filter_visited (l : List (String × User)) (f : String → Bool) :
    l.filter (fun p => !(f p.1 && decide (p.1 ∈ l.map Prod.fst))) =
      l.filter (fun p => !(f p.1)) := by
  apply List.filter_congr
  intro p hp
  have hm : p.1 ∈ l.map Prod.fst := List.mem_map_of_mem _ hp
  simp [hm]

/-- When no send fails and the sweep leaves at least one record, the
post-sweep phase of `cleanupOldConnections` never ends the meeting: the
result is the loop's model, the loop's effects plus (possibly) a roster
re-broadcast, and the surviving record count. -/
lemma cleanup_surv_shape (fuel : Nat) (env : ExternalEnv) (now : Nat)
    (m : RoomModel)
    (hnf : ∀ c ∈ m.conns, c.sendFails = false)
    (hcnt : (cleanupLoop fuel now m.conns m.storage.sessions m).1.storage.sessions.length ≠ 0) :
    ∃ extra,
      cleanupOldConnections fuel env now m =
        ((cleanupLoop fuel now m.conns m.storage.sessions m).1,
         (cleanupLoop fuel now m.conns m.storage.sessions m).2.1 ++ extra,
         (cleanupLoop fuel now m.conns m.storage.sessions m).1.storage.sessions.length) := by
  obtain ⟨_, _, iconn, _⟩ :=
    cleanupLoop_spec fuel now m.conns m.storage.sessions m hnf
  have hok : ∀ c ∈ (cleanupLoop fuel now m.conns m.storage.sessions m).1.conns,
      c.sendFails = false := fun c hc => (iconn c hc).2
  have hbr := broadcastRoomState_noFail fuel
    (cleanupLoop fuel now m.conns m.storage.sessions m).1 hok
  unfold cleanupOldConnections
  cases hmid : m.storage.meetingId with
  | none =>
    by_cases hrm : 0 < (cleanupLoop fuel now m.conns m.storage.sessions m).2.2
    · refine ⟨(cleanupLoop fuel now m.conns m.storage.sessions m).1.conns.map
        (fun c => Effect.send c.id
          (roomStateMessage (cleanupLoop fuel now m.conns m.storage.sessions m).1.storage)),
        ?_⟩
      simp only [hrm, if_true, hbr]
    · refine ⟨[], ?_⟩
      simp only [hrm, if_false]
      simp
  | some mid =>
    by_cases hrm : 0 < (cleanupLoop fuel now m.conns m.storage.sessions m).2.2
    · refine ⟨(cleanupLoop fuel now m.conns m.storage.sessions m).1.conns.map
        (fun c => Effect.send c.id
          (roomStateMessage (cleanupLoop fuel now m.conns m.storage.sessions m).1.storage)),
        ?_⟩
      simp only [hcnt, if_false, hrm, if_true, hbr]
    · refine ⟨[], ?_⟩
      simp only [hcnt, if_false, hrm]
      simp

/-- When no send fails, a meeting id and room code are stored, and the sweep
leaves no record, `cleanupOldConnections` ends the meeting: storage is wiped
and a `{peakUsers: 0, status:'done'}` report is issued. -/
lemma cleanup_empty_shape (fuel : Nat) (env : ExternalEnv) (now : Nat)
    (m : RoomModel) (mid rc : String)
    (hnf : ∀ c ∈ m.conns, c.sendFails = false)
    (hmid : m.storage.meetingId = some mid)
    (hrc : m.storage.roomCode = some rc)
    (hcnt : (cleanupLoop fuel now m.conns m.storage.sessions m).1.storage.sessions.length = 0) :
    cleanupOldConnections fuel env now m =
      ({ (cleanupLoop fuel now m.conns m.storage.sessions m).1 with
         storage := emptyStorage },
       (cleanupLoop fuel now m.conns m.storage.sessions m).2.1 ++
         [Effect.report rc 0 "done"],
       0) := by
  obtain ⟨⟨_, _, irc, _⟩, _, _, _⟩ :=
    cleanupLoop_spec fuel now m.conns m.storage.sessions m hnf
  have hrc' : (cleanupLoop fuel now m.conns m.storage.sessions m).1.storage.roomCode =
      some rc := by rw [irc, hrc]
  unfold cleanupOldConnections
  rw [hmid]
  simp only [hcnt, if_true]
  unfold endMeeting
  rw [hrc']
  simp [getMeeting, emptyStorage]

/-! ### Lemmas about the keyed stores -/

lemma find?_overwrite (id : String) (u : User) :
    ∀ l : List (String × User), l.any (fun p => p.1 = id) = true →
      (l.map (fun p => if p.1 = id then (id, u) else p)).find?
          (fun p => p.1 = id) = some (id, u)
  | [], h => by simp at h
  | q :: rest, h => by
    by_cases hq : q.1 = id
    · simp [hq]
    · have h' : rest.any (fun p => p.1 = id) = true := by
        rcases List.any_eq_true.mp h with ⟨p, hp, hpid⟩
        rcases List.mem_cons.mp hp with hp | hp
        · subst hp
          exact absurd (of_decide_eq_true hpid) hq
        · exact List.any_eq_true.mpr ⟨p, hp, hpid⟩
      simp [hq, find?_overwrite id u rest h']

lemma find?_append_fresh (id : String) (u : User) :
    ∀ l : List (String × User), l.any (fun p => p.1 = id) = false →
      (l ++ [(id, u)]).find? (fun p => p.1 = id) = some (id, u)
  | [], _ => by simp
  | q :: rest, h => by
    have hq : (q.1 = id) = False := by
      by_contra hn
      have : q.1 = id := by
        by_contra hq'
        exact hn (by simp [hq'])
      rw [List.any_cons] at h
      simp [this] at h
    have h' : rest.any (fun p => p.1 = id) = false := by
      rw [List.any_cons] at h
      exact (Bool.or_eq_false_iff.mp h).2
    simp only [List.cons_append]
    rw [List.find?_cons_of_neg _ (by simp [hq])]
    exact find?_append_fresh id u rest h'

/-- Writing a user record and reading it back through the same key is the
identity. -/
lemma lookupSession_putSession (s : RoomStorage) (id : String) (u : User) :
    lookupSession (putSession s id u) id = some u := by
  unfold lookupSession putSession
  by_cases h : s.sessions.any (fun p => p.1 = id)
  · simp only [h, if_true]
    rw [find?_overwrite id u s.sessions h]
    rfl
  · have h' : s.sessions.any (fun p => p.1 = id) = false :=
      Bool.eq_false_iff.mpr h
    simp only [h', Bool.false_eq_true, if_false]
    rw [find?_append_fresh id u s.sessions h']
    rfl

/-- `putSession` never touches the meeting id. -/
lemma putSession_meetingId (s : RoomStorage) (id : String) (u : User) :
    (putSession s id u).meetingId = s.meetingId := by
  unfold putSession
  split <;> rfl

/-! ### The claims -/

/-- Claim C2: the spec says `getMeeting` maps the external status into
`ended` with `done`, `cancelled` and `no_show` all ending the meeting.  The
code spells the middle literal `"canceled"` while its own status type (and
the service) spell `"cancelled"`, so a cancelled meeting is mapped to
`ended = false`; the other four statuses map as specified. -/
theorem claim_C2_bug :
    (getMeeting (envWith MeetingStatus.done 3) stR "m").map Meeting.ended = some true ∧
    (getMeeting (envWith MeetingStatus.cancelled 3) stR "m").map Meeting.ended = some false ∧
    (getMeeting (envWith MeetingStatus.noShow 3) stR "m").map Meeting.ended = some true ∧
    (getMeeting (envWith MeetingStatus.planned 3) stR "m").map Meeting.ended = some false ∧
    (getMeeting (envWith MeetingStatus.started 3) stR "m").map Meeting.ended = some false := by
  exact ⟨rfl, rfl, rfl, rfl, rfl⟩

/-- Claim C10: with no `meetingId` in storage, `broadcastRoomState` sends the
`No meetingId found, closing connection` error payload to every open channel
and — when every send succeeds — changes nothing: no channel is closed and no
stored record is deleted. -/
theorem claim_C10 (fuel : Nat) (m : RoomModel)
    (hmid : m.storage.meetingId = none)
    (hnf : ∀ c ∈ m.conns, c.sendFails = false) :
    broadcastRoomState fuel m =
      (m, m.conns.map (fun c => Effect.send c.id
        (ServerMessage.error "No meetingId found, closing connection"))) := by
  rw [broadcastRoomState_noFail fuel m hnf]
  simp [roomStateMessage, hmid]

/-- Witness for C10 on a concrete one-user room. -/
theorem claim_C10_witness :
    mNoMid.storage.meetingId = none ∧
    (∀ c ∈ mNoMid.conns, c.sendFails = false) ∧
    broadcastRoomState 1 mNoMid =
      (mNoMid, mNoMid.conns.map (fun c => Effect.send c.id
        (ServerMessage.error "No meetingId found, closing connection"))) :=
  ⟨rfl, by decide, claim_C10 1 mNoMid rfl (by decide)⟩

/-- Claim C4: a connection whose room code fails validation receives a
structured error message, then a 4004 close, and neither a `User` record nor
a heartbeat record is stored — the roster is untouched. -/
theorem claim_C4 (fuel : Nat) (env : ExternalEnv) (now : Nat)
    (freshId username connId : String) (roomCode : Option String) (m : RoomModel)
    (hinvalid : isRoomValid env roomCode = none) :
    (onConnect fuel env now freshId username connId roomCode m).2 =
      [Effect.send connId (ServerMessage.error "Room invalid"),
       Effect.close connId 4004] ∧
    (onConnect fuel env now freshId username connId roomCode m).1.storage.sessions =
      m.storage.sessions ∧
    (onConnect fuel env now freshId username connId roomCode m).1.storage.heartbeats =
      m.storage.heartbeats := by
  cases roomCode with
  | none =>
    cases hmrc : m.storage.roomCode <;> simp [onConnect, isRoomValid, hmrc]
  | some rc =>
    have h' : env.lookupRoom rc = none := by simpa [isRoomValid] using hinvalid
    cases hmrc : m.storage.roomCode <;> simp [onConnect, isRoomValid, hmrc, h']

/-- Witness for C4 with a lifecycle service that rejects every room. -/
theorem claim_C4_witness :
    isRoomValid envNone (some "bad") = none ∧
    ((onConnect 1 envNone 0 "f" "Ann" "z" (some "bad") mSolo).2 =
      [Effect.send "z" (ServerMessage.error "Room invalid"),
       Effect.close "z" 4004] ∧
     (onConnect 1 envNone 0 "f" "Ann" "z" (some "bad") mSolo).1.storage.sessions =
       mSolo.storage.sessions ∧
     (onConnect 1 envNone 0 "f" "Ann" "z" (some "bad") mSolo).1.storage.heartbeats =
       mSolo.storage.heartbeats) :=
  ⟨rfl, claim_C4 1 envNone 0 "f" "Ann" "z" (some "bad") mSolo rfl⟩

/-- Claim C7: a `directMessage` whose target id matches an open channel
delivers exactly one `directMessage` — tagged with the sender's stored
name — to that channel and none to any other channel. -/
theorem claim_C7 (fuel now : Nat) (connId toId msgText : String) (m : RoomModel)
    (u : User) (c : Conn)
    (hsender : lookupSession m.storage connId = some u)
    (hfind : m.conns.find? (fun d => d.id = toId) = some c)
    (hok : c.sendFails = false) :
    (onMessage fuel now connId (ClientMessage.directMessage toId msgText) m).2 =
      [Effect.send toId (ServerMessage.directMessage u.name msgText)] ∧
    dmCount (onMessage fuel now connId (ClientMessage.directMessage toId msgText) m).2
      toId = 1 ∧
    ∀ cid, cid ≠ toId →
      dmCount (onMessage fuel now connId (ClientMessage.directMessage toId msgText) m).2
        cid = 0 := by
  have hcid : c.id = toId := by simpa using List.find?_some hfind
  have h1 : (onMessage fuel now connId (ClientMessage.directMessage toId msgText) m).2 =
      [Effect.send toId (ServerMessage.directMessage u.name msgText)] := by
    simp only [onMessage, hsender, hfind, hok, Bool.false_eq_true, if_false]
    rw [hcid]
  refine ⟨h1, ?_, ?_⟩
  · rw [h1]
    simp [dmCount]
  · intro cid hne
    rw [h1]
    have hne' : ¬toId = cid := fun h => hne h.symm
    simp [dmCount, hne']

/-- Witness for C7: Alice messages Bob in the two-user room. -/
theorem claim_C7_witness :
    lookupSession mAB.storage "a" = some uAlice ∧
    mAB.conns.find? (fun d => d.id = "b") = some { id := "b", sendFails := false } ∧
    ((onMessage 1 0 "a" (ClientMessage.directMessage "b" "hi") mAB).2 =
      [Effect.send "b" (ServerMessage.directMessage uAlice.name "hi")] ∧
     dmCount (onMessage 1 0 "a" (ClientMessage.directMessage "b" "hi") mAB).2 "b" = 1 ∧
     ∀ cid, cid ≠ "b" →
       dmCount (onMessage 1 0 "a" (ClientMessage.directMessage "b" "hi") mAB).2 cid = 0) :=
  ⟨rfl, rfl, claim_C7 1 0 "a" "b" "hi" mAB uAlice { id := "b", sendFails := false }
    rfl rfl rfl⟩

/-- Claim C8: a `muteUser` whose id matches no open channel changes no state
at all — roster and every stored `audioEnabled` flag included — and sends
neither a `muteMic` instruction nor a roster broadcast. -/
theorem claim_C8 (fuel now : Nat) (connId targetId : String) (m : RoomModel)
    (hno : ∀ c ∈ m.conns, c.id ≠ targetId) :
    (onMessage fuel now connId (ClientMessage.muteUser targetId) m).1 = m ∧
    (∀ cid : String, Effect.send cid ServerMessage.muteMic ∉
      (onMessage fuel now connId (ClientMessage.muteUser targetId) m).2) ∧
    ∀ (cid mid : String) (us : List User),
      Effect.send cid (ServerMessage.roomState mid us) ∉
        (onMessage fuel now connId (ClientMessage.muteUser targetId) m).2 := by
  have hfind : m.conns.find? (fun c => c.id = targetId) = none :=
    List.find?_eq_none.mpr (fun c hc => by simpa using hno c hc)
  cases hs : lookupSession m.storage connId with
  | none => simp [onMessage, hfind, hs]
  | some su => simp [onMessage, hfind, hs]

/-- Witness for C8: muting the nonexistent id `zz`. -/
theorem claim_C8_witness :
    (∀ c ∈ mAB.conns, c.id ≠ "zz") ∧
    ((onMessage 1 0 "a" (ClientMessage.muteUser "zz") mAB).1 = mAB ∧
     (∀ cid : String, Effect.send cid ServerMessage.muteMic ∉
       (onMessage 1 0 "a" (ClientMessage.muteUser "zz") mAB).2) ∧
     ∀ (cid mid : String) (us : List User),
       Effect.send cid (ServerMessage.roomState mid us) ∉
         (onMessage 1 0 "a" (ClientMessage.muteUser "zz") mAB).2) :=
  ⟨by decide, claim_C8 1 0 "a" "zz" mAB (by decide)⟩

/-- Claim C5 (corrected): `trackPeakUserCount` runs the sweep and then — as
long as the meeting lookup succeeds — always issues the
`{peakUsers, status:'started'}` report carrying the previously stored peak
unchanged, because the guard `userCount > previousCount || meeting.ended !==
null` is vacuously true: `ended` is a boolean and never strictly equals
`null`. -/
theorem claim_C5_amended (fuel now : Nat) (freshId mid rc : String)
    (env : ExternalEnv) (d : MeetingData) (m : RoomModel)
    (hmid : m.storage.meetingId = some mid)
    (hrc : m.storage.roomCode = some rc)
    (henv : env.lookupRoom rc = some d) :
    trackPeakUserCount fuel env now freshId m =
      ((cleanupOldConnections fuel env now m).1,
       (cleanupOldConnections fuel env now m).2.1 ++
         [Effect.report rc d.peakUsers "started"]) := by
  have hget : getMeeting env m.storage mid =
      some
        { roomId := rc
          ended := ["done", "canceled", "no_show"].contains (statusString d.status)
          peakUserCount := d.peakUsers
          id := mid } := by
    simp [getMeeting, hrc, isRoomValid, henv]
  unfold trackPeakUserCount
  rw [hmid]
  simp only [hget]
  simp [jsStrictNeNull]

/-- Counterexample for C5 as stated: nobody joined (roster size 1 does not
exceed the stored peak 1) and the meeting is not flagged ended, yet the
report is issued. -/
theorem claim_C5_cx :
    (trackPeakUserCount 1 (envWith MeetingStatus.started 1) 100 "f" mSolo).2 =
      [Effect.report "rc" 1 "started"] ∧
    mSolo.storage.sessions.length = 1 ∧
    getMeeting (envWith MeetingStatus.started 1) mSolo.storage "mid" =
      some { roomId := "rc", ended := false, peakUserCount := 1, id := "mid" } :=
  ⟨rfl, rfl, rfl⟩

/-- Witness for the amended C5 on the concrete one-user room. -/
theorem claim_C5_amended_witness :
    mSolo.storage.meetingId = some "mid" ∧
    mSolo.storage.roomCode = some "rc" ∧
    (envWith MeetingStatus.started 1).lookupRoom "rc" =
      some { roomId := "r", peakUsers := 1, status := MeetingStatus.started } ∧
    trackPeakUserCount 1 (envWith MeetingStatus.started 1) 100 "f" mSolo =
      ((cleanupOldConnections 1 (envWith MeetingStatus.started 1) 100 mSolo).1,
       (cleanupOldConnections 1 (envWith MeetingStatus.started 1) 100 mSolo).2.1 ++
         [Effect.report "rc" 1 "started"]) :=
  ⟨rfl, rfl, rfl,
    claim_C5_amended 1 100 "f" "mid" "rc" (envWith MeetingStatus.started 1)
      { roomId := "r", peakUsers := 1, status := MeetingStatus.started }
      mSolo rfl rfl rfl⟩

/-- Claim C9: a `User` payload submitted through `userUpdate` is stored under
the sender's session key unchanged, and the roster broadcast that follows
carries exactly that stored roster — the submitted payload reads back
identically. -/
theorem claim_C9 (fuel now : Nat) (connId : String) (payload : User)
    (mid : String) (m : RoomModel)
    (hmid : m.storage.meetingId = some mid)
    (hnf : ∀ c ∈ m.conns, c.sendFails = false) :
    lookupSession
      (onMessage fuel now connId (ClientMessage.userUpdate payload) m).1.storage
      connId = some payload ∧
    (onMessage fuel now connId (ClientMessage.userUpdate payload) m).2 =
      m.conns.map (fun c => Effect.send c.id
        (ServerMessage.roomState mid
          ((putSession m.storage connId payload).sessions.map Prod.snd))) ∧
    payload ∈ (putSession m.storage connId payload).sessions.map Prod.snd := by
  have hmsg : roomStateMessage (putSession m.storage connId payload) =
      ServerMessage.roomState mid
        ((putSession m.storage connId payload).sessions.map Prod.snd) := by
    unfold roomStateMessage
    rw [putSession_meetingId, hmid]
  have hstep : onMessage fuel now connId (ClientMessage.userUpdate payload) m =
      ({ m with storage := putSession m.storage connId payload },
       m.conns.map (fun c => Effect.send c.id
         (ServerMessage.roomState mid
           ((putSession m.storage connId payload).sessions.map Prod.snd)))) := by
    show broadcastRoomState fuel
        { m with storage := putSession m.storage connId payload } = _
    rw [broadcastRoomState_noFail fuel
        { m with storage := putSession m.storage connId payload }
        (fun c hc => hnf c hc), hmsg]
  refine ⟨?_, ?_, ?_⟩
  · rw [hstep]
    exact lookupSession_putSession m.storage connId payload
  · rw [hstep]
  · have hl := lookupSession_putSession m.storage connId payload
    unfold lookupSession at hl
    rcases hfind : (putSession m.storage connId payload).sessions.find?
        (fun p => p.1 = connId) with _ | pr
    · rw [hfind] at hl
      simp at hl
    · rw [hfind] at hl
      have hmem := List.mem_of_find?_eq_some hfind
      have hsnd : pr.2 = payload := by
        simpa using hl
      have hin : pr.2 ∈ (putSession m.storage connId payload).sessions.map Prod.snd :=
        List.mem_map_of_mem _ hmem
      rwa [hsnd] at hin

/-- Witness for C9: Alice submits a fresh payload in the two-user room. -/
theorem claim_C9_witness :
    mAB.storage.meetingId = some "mid" ∧
    (∀ c ∈ mAB.conns, c.sendFails = false) ∧
    (lookupSession
      (onMessage 1 0 "a" (ClientMessage.userUpdate uBob) mAB).1.storage
      "a" = some uBob ∧
     (onMessage 1 0 "a" (ClientMessage.userUpdate uBob) mAB).2 =
       mAB.conns.map (fun c => Effect.send c.id
         (ServerMessage.roomState "mid"
           ((putSession mAB.storage "a" uBob).sessions.map Prod.snd))) ∧
     uBob ∈ (putSession mAB.storage "a" uBob).sessions.map Prod.snd) :=
  ⟨rfl, by decide, claim_C9 1 0 "a" uBob "mid" mAB rfl (by decide)⟩

/-- After one fan-out round over the full connection set, every surviving
connection has a working send. -/
lemma broadcastLoop_top_conns_ok (msg : ServerMessage) (m : RoomModel) :
    ∀ d ∈ (broadcastLoop msg none m.conns m).1.conns, d.sendFails = false := by
  rw [broadcastLoop_spec]
  intro d hd
  have hdm := List.mem_of_mem_filter hd
  have hpred := List.of_mem_filter hd
  simp only [hdm, decide_True, Bool.true_and, Bool.not_eq_true'] at hpred
  exact hpred

/-- With at least one failing channel, `broadcastMessage` at positive fuel
runs one fan-out round and then re-broadcasts the recomputed room state to
the surviving channels (none of which fails again). -/
lemma broadcastMessage_succ_spec (fuel : Nat) (m : RoomModel)
    (msg : ServerMessage)
    (hq : m.conns.any (fun c => c.sendFails) = true) :
    broadcastMessage (fuel + 1) m msg none =
      ((broadcastLoop msg none m.conns m).1,
       (broadcastLoop msg none m.conns m).2.1 ++
         (broadcastLoop msg none m.conns m).1.conns.map
           (fun c => Effect.send c.id
             (roomStateMessage (broadcastLoop msg none m.conns m).1.storage))) := by
  have hok := broadcastLoop_top_conns_ok msg m
  have hquit : (broadcastLoop msg none m.conns m).2.2 = true := by
    rw [broadcastLoop_spec]
    exact hq
  have hsecond := broadcastMessage_noFail fuel
    (broadcastLoop msg none m.conns m).1
    (roomStateMessage (broadcastLoop msg none m.conns m).1.storage) hok
  conv_lhs => unfold broadcastMessage
  simp only [hquit, if_true, hsecond]

/-- Claim C6 (corrected): a failing channel during fan-out is closed with
1011 and its `User` record is deleted — but its heartbeat record is NOT
deleted — the remaining channels still receive the message, and when any
channel failed the recomputed roster is broadcast once more to the
survivors. -/
theorem claim_C6_amended (fuel : Nat) (m : RoomModel) (msg : ServerMessage) :
    (∀ c ∈ m.conns, c.sendFails = true →
      Effect.close c.id 1011 ∈ (broadcastMessage (fuel + 1) m msg none).2 ∧
      lookupSession (broadcastMessage (fuel + 1) m msg none).1.storage c.id = none) ∧
    (∀ c ∈ m.conns, c.sendFails = false →
      Effect.send c.id msg ∈ (broadcastMessage (fuel + 1) m msg none).2) ∧
    (broadcastMessage (fuel + 1) m msg none).1.storage.heartbeats =
      m.storage.heartbeats ∧
    ((∃ c ∈ m.conns, c.sendFails = true) →
      ∀ c ∈ (broadcastMessage (fuel + 1) m msg none).1.conns,
        Effect.send c.id
            (roomStateMessage (broadcastMessage (fuel + 1) m msg none).1.storage) ∈
          (broadcastMessage (fuel + 1) m msg none).2) := by
  by_cases hq : m.conns.any (fun c => c.sendFails) = true
  · have hbm := broadcastMessage_succ_spec fuel m msg hq
    have hloop := broadcastLoop_spec msg m.conns m
    refine ⟨?_, ?_, ?_, ?_⟩
    · intro c hc hfail
      constructor
      · rw [hbm, hloop]
        refine List.mem_append_left _ ?_
        have hmem := List.mem_map_of_mem
          (fun c => if c.sendFails then Effect.close c.id 1011
            else Effect.send c.id msg) hc
        simpa [hfail] using hmem
      · rw [hbm, hloop]
        unfold lookupSession
        rw [List.find?_eq_none.mpr, Option.map_none']
        intro p hp
        have hpred := List.of_mem_filter hp
        simp only [Bool.not_eq_true', decide_eq_false_iff_not] at hpred
        intro hpc
        apply hpred
        rw [of_decide_eq_true hpc]
        exact List.mem_map_of_mem Conn.id (List.mem_filter.mpr ⟨hc, by simp [hfail]⟩)
    · intro c hc hokc
      rw [hbm, hloop]
      refine List.mem_append_left _ ?_
      have hmem := List.mem_map_of_mem
        (fun c => if c.sendFails then Effect.close c.id 1011
          else Effect.send c.id msg) hc
      simpa [hokc] using hmem
    · rw [hbm, hloop]
    · intro _ c hc
      rw [hbm] at hc ⊢
      exact List.mem_append_right _ (List.mem_map_of_mem _ hc)
  · have hall : ∀ c ∈ m.conns, c.sendFails = false := by
      intro c hc
      by_contra hf
      exact hq (List.any_eq_true.mpr ⟨c, hc, by simpa using hf⟩)
    have hbm := broadcastMessage_noFail (fuel + 1) m msg hall
    refine ⟨?_, ?_, ?_, ?_⟩
    · intro c hc hfail
      exact absurd hfail (by simp [hall c hc])
    · intro c hc _
      rw [hbm]
      exact List.mem_map_of_mem _ hc
    · rw [hbm]
    · intro hex
      rcases hex with ⟨c, hc, hfail⟩
      exact absurd hfail (by simp [hall c hc])

/-- Counterexample for C6 as stated: after channel `a` fails during a
broadcast, its `User` record is gone but its heartbeat record is still in
storage, contradicting "that channel's User record and heartbeat record are
deleted". -/
theorem claim_C6_cx :
    lookupSession (broadcastMessage 1 mFail ServerMessage.muteMic none).1.storage
      "a" = none ∧
    lookupHeartbeat (broadcastMessage 1 mFail ServerMessage.muteMic none).1.storage
      "a" = some 5 :=
  ⟨rfl, rfl⟩

/-- Witness for the amended C6 on the concrete failing-channel room. -/
theorem claim_C6_amended_witness :
    (∀ c ∈ mFail.conns, c.sendFails = true →
      Effect.close c.id 1011 ∈ (broadcastMessage 1 mFail ServerMessage.muteMic none).2 ∧
      lookupSession (broadcastMessage 1 mFail ServerMessage.muteMic none).1.storage
        c.id = none) ∧
    (∀ c ∈ mFail.conns, c.sendFails = false →
      Effect.send c.id ServerMessage.muteMic ∈
        (broadcastMessage 1 mFail ServerMessage.muteMic none).2) ∧
    (broadcastMessage 1 mFail ServerMessage.muteMic none).1.storage.heartbeats =
      mFail.storage.heartbeats ∧
    ((∃ c ∈ mFail.conns, c.sendFails = true) →
      ∀ c ∈ (broadcastMessage 1 mFail ServerMessage.muteMic none).1.conns,
        Effect.send c.id
            (roomStateMessage
              (broadcastMessage 1 mFail ServerMessage.muteMic none).1.storage) ∈
          (broadcastMessage 1 mFail ServerMessage.muteMic none).2) :=
  claim_C6_amended 0 mFail ServerMessage.muteMic

/-- Effects of the eviction loop are always a prefix of the effects of the
whole sweep, whatever the post-sweep phase does. -/
lemma cleanup_effects_prefix (fuel : Nat) (env : ExternalEnv) (now : Nat)
    (m : RoomModel) :
    ∃ extra, (cleanupOldConnections fuel env now m).2.1 =
      (cleanupLoop fuel now m.conns m.storage.sessions m).2.1 ++ extra := by
  unfold cleanupOldConnections
  cases m.storage.meetingId with
  | none =>
    by_cases h : 0 < (cleanupLoop fuel now m.conns m.storage.sessions m).2.2
    · refine ⟨(broadcastRoomState fuel
        (cleanupLoop fuel now m.conns m.storage.sessions m).1).2, ?_⟩
      simp only [h, if_true]
    · refine ⟨[], ?_⟩
      simp only [h, if_false]
      simp
  | some mid =>
    by_cases h0 : (cleanupLoop fuel now m.conns m.storage.sessions m).1.storage.sessions.length = 0
    · refine ⟨(endMeeting env
        (cleanupLoop fuel now m.conns m.storage.sessions m).1 mid).2, ?_⟩
      simp only [h0, if_true]
    · by_cases h : 0 < (cleanupLoop fuel now m.conns m.storage.sessions m).2.2
      · refine ⟨(broadcastRoomState fuel
          (cleanupLoop fuel now m.conns m.storage.sessions m).1).2, ?_⟩
        simp only [h0, if_false, h, if_true]
      · refine ⟨[], ?_⟩
        simp only [h0, if_false, h]
        simp

/-- `endMeeting` always wipes storage, whether or not a room code is
present. -/
lemma endMeeting_storage (env : ExternalEnv) (mm : RoomModel) (mi : String) :
    (endMeeting env mm mi).1.storage = emptyStorage := by
  unfold endMeeting
  cases mm.storage.roomCode <;> rfl

/-- When the sweep leaves no record and a meeting id is stored, the whole
storage — heartbeat records included — ends up wiped by `endMeeting`'s
`deleteAll`. -/
lemma cleanup_empty_storage (fuel : Nat) (env : ExternalEnv) (now : Nat)
    (m : RoomModel) (mid : String)
    (hmid : m.storage.meetingId = some mid)
    (hcnt0 : (cleanupLoop fuel now m.conns m.storage.sessions m).1.storage.sessions.length = 0) :
    (cleanupOldConnections fuel env now m).1.storage = emptyStorage := by
  unfold cleanupOldConnections
  rw [hmid]
  simp only [hcnt0, if_true]
  exact endMeeting_storage env _ mid

/-- With no meeting id stored and no failing sends, the post-sweep phase
leaves storage exactly as the eviction loop left it. -/
lemma cleanup_nomid_shape (fuel : Nat) (env : ExternalEnv) (now : Nat)
    (m : RoomModel)
    (hnf : ∀ c ∈ m.conns, c.sendFails = false)
    (hmid : m.storage.meetingId = none) :
    (cleanupOldConnections fuel env now m).1.storage =
      (cleanupLoop fuel now m.conns m.storage.sessions m).1.storage := by
  obtain ⟨_, _, iconn, _⟩ :=
    cleanupLoop_spec fuel now m.conns m.storage.sessions m hnf
  have hok : ∀ c ∈ (cleanupLoop fuel now m.conns m.storage.sessions m).1.conns,
      c.sendFails = false := fun c hc => (iconn c hc).2
  unfold cleanupOldConnections
  rw [hmid]
  by_cases h : 0 < (cleanupLoop fuel now m.conns m.storage.sessions m).2.2
  · simp only [h, if_true, broadcastRoomState_noFail fuel _ hok]
  · simp only [h, if_false]

/-- Concrete check of the empty-room branch: sweeping a room whose only
user is stale (with a stored meeting id) wipes all of storage, the heartbeat
record included. -/
lemma cleanup_empty_concrete :
    (cleanupOldConnections 2 envNone 20000 mStaleOnly).1.storage = emptyStorage ∧
    lookupHeartbeat (cleanupOldConnections 2 envNone 20000 mStaleOnly).1.storage
      "a" = none :=
  ⟨rfl, rfl⟩

/-- Claim C1 (corrected): one sweep cycle evicts a stored user exactly when
its heartbeat record is absent or older than the sweep interval: broadcasting
the departure to the open channels (a channel force-closed earlier in the
same sweep no longer receives the notifications that follow its closure),
deleting the `User` record, and force-closing a live channel with that id.
The eviction itself never deletes the heartbeat record: it stays in storage
whenever some user survives the sweep (or no meeting id is stored), while a
sweep that empties a room with a stored meeting id ends the meeting and its
`deleteAll` wipes every record, heartbeats included.  Survivors keep their
records unchanged. -/
theorem claim_C1_amended (fuel now : Nat) (env : ExternalEnv) (m : RoomModel)
    (hnf : ∀ c ∈ m.conns, c.sendFails = false) :
    (((∃ p ∈ m.storage.sessions,
        isStale (lookupHeartbeat m.storage p.1) now = false) ∨
      m.storage.meetingId = none) →
      (cleanupOldConnections fuel env now m).1.storage.sessions =
        m.storage.sessions.filter
          (fun p => !(isStale (lookupHeartbeat m.storage p.1) now)) ∧
      (cleanupOldConnections fuel env now m).1.storage.heartbeats =
        m.storage.heartbeats) ∧
    ((∀ p ∈ m.storage.sessions,
        isStale (lookupHeartbeat m.storage p.1) now = true) →
      ∀ mid, m.storage.meetingId = some mid →
      (cleanupOldConnections fuel env now m).1.storage = emptyStorage) ∧
    (∀ p ∈ m.storage.sessions, isStale (lookupHeartbeat m.storage p.1) now = true →
      ((m.conns.any (fun c => c.id = p.1) = true →
        Effect.close p.1 1011 ∈ (cleanupOldConnections fuel env now m).2.1) ∧
       ∀ c ∈ m.conns,
         ¬(isStale (lookupHeartbeat m.storage c.id) now = true ∧
           c.id ∈ m.storage.sessions.map Prod.fst) →
         Effect.send c.id (ServerMessage.userLeftNotification p.1) ∈
           (cleanupOldConnections fuel env now m).2.1)) := by
  obtain ⟨⟨ihb, imid, irc, ial⟩, isess, iconn, ieff⟩ :=
    cleanupLoop_spec fuel now m.conns m.storage.sessions m hnf
  have hsess : (cleanupLoop fuel now m.conns m.storage.sessions m).1.storage.sessions =
      m.storage.sessions.filter
        (fun p => !(isStale (lookupHeartbeat m.storage p.1) now)) := by
    rw [isess]
    exact filter_visited m.storage.sessions
      (fun x => isStale (lookupHeartbeat m.storage x) now)
  obtain ⟨extraE, heffs⟩ := cleanup_effects_prefix fuel env now m
  refine ⟨?_, ?_, ?_⟩
  · rintro (hsurv | hnomid)
    · have hcnt :
          (cleanupLoop fuel now m.conns m.storage.sessions m).1.storage.sessions.length ≠ 0 := by
        rw [hsess]
        rcases hsurv with ⟨p, hp, hfresh⟩
        have hmemf : p ∈ m.storage.sessions.filter
            (fun p => !(isStale (lookupHeartbeat m.storage p.1) now)) :=
          List.mem_filter.mpr ⟨hp, by simp [hfresh]⟩
        exact Nat.pos_iff_ne_zero.mp (List.length_pos.mpr (List.ne_nil_of_mem hmemf))
      obtain ⟨extra, heq⟩ := cleanup_surv_shape fuel env now m hnf hcnt
      constructor
      · rw [heq]
        exact hsess
      · rw [heq]
        exact ihb
    · have hshape := cleanup_nomid_shape fuel env now m hnf hnomid
      constructor
      · rw [hshape]
        exact hsess
      · rw [hshape]
        exact ihb
  · intro hall mid hmid
    have hnil : m.storage.sessions.filter
        (fun p => !(isStale (lookupHeartbeat m.storage p.1) now)) = [] := by
      rw [List.filter_eq_nil_iff]
      intro p hp
      simp [hall p hp]
    have hcnt0 :
        (cleanupLoop fuel now m.conns m.storage.sessions m).1.storage.sessions.length = 0 := by
      rw [hsess, hnil]
      rfl
    exact cleanup_empty_storage fuel env now m mid hmid hcnt0
  · intro p hp hstale
    have he := ieff p hp hstale
    constructor
    · intro hany
      rw [heffs]
      exact List.mem_append_left _ (he.1 hany)
    · intro c hc hguard
      rw [heffs]
      exact List.mem_append_left _ (he.2 c hc hguard)

/-- Counterexample for C1 as stated, on the three-user room `mABS` (users
`a`, `b` stale, `s` fresh): evicted user `a` loses its `User` record but its
heartbeat record survives the sweep, and channel `a` — although open when the
sweep started and notified of `a`'s own departure — never receives the
`userLeftNotification` for `b`, which was broadcast after `a` was
force-closed.  This contradicts both "deletes that user's User record and
heartbeat record" and "notifies all channels of the departure". -/
theorem claim_C1_cx :
    lookupSession (cleanupOldConnections 2 envNone 20000 mABS).1.storage "a" =
      none ∧
    lookupHeartbeat (cleanupOldConnections 2 envNone 20000 mABS).1.storage "a" =
      some 0 ∧
    Effect.send "a" (ServerMessage.userLeftNotification "a") ∈
      (cleanupOldConnections 2 envNone 20000 mABS).2.1 ∧
    Effect.send "a" (ServerMessage.userLeftNotification "b") ∉
      (cleanupOldConnections 2 envNone 20000 mABS).2.1 :=
  ⟨rfl, rfl, by decide, by decide⟩

/-- Witness for the amended C1 on the concrete three-user room. -/
theorem claim_C1_amended_witness :
    (∀ c ∈ mABS.conns, c.sendFails = false) ∧
    ((((∃ p ∈ mABS.storage.sessions,
        isStale (lookupHeartbeat mABS.storage p.1) 20000 = false) ∨
      mABS.storage.meetingId = none) →
      (cleanupOldConnections 2 envNone 20000 mABS).1.storage.sessions =
        mABS.storage.sessions.filter
          (fun p => !(isStale (lookupHeartbeat mABS.storage p.1) 20000)) ∧
      (cleanupOldConnections 2 envNone 20000 mABS).1.storage.heartbeats =
        mABS.storage.heartbeats) ∧
    ((∀ p ∈ mABS.storage.sessions,
        isStale (lookupHeartbeat mABS.storage p.1) 20000 = true) →
      ∀ mid, mABS.storage.meetingId = some mid →
      (cleanupOldConnections 2 envNone 20000 mABS).1.storage = emptyStorage) ∧
    (∀ p ∈ mABS.storage.sessions,
      isStale (lookupHeartbeat mABS.storage p.1) 20000 = true →
      ((mABS.conns.any (fun c => c.id = p.1) = true →
        Effect.close p.1 1011 ∈ (cleanupOldConnections 2 envNone 20000 mABS).2.1) ∧
       ∀ c ∈ mABS.conns,
         ¬(isStale (lookupHeartbeat mABS.storage c.id) 20000 = true ∧
           c.id ∈ mABS.storage.sessions.map Prod.fst) →
         Effect.send c.id (ServerMessage.userLeftNotification p.1) ∈
           (cleanupOldConnections 2 envNone 20000 mABS).2.1))) :=
  ⟨by decide, claim_C1_amended 2 20000 envNone mABS (by decide)⟩

/-- Claim C3: after the sweep, an empty room (with a stored meeting id and
room code) has its meeting ended — storage wiped, a `{peakUsers, 'done'}`
report issued — and the timer stays unarmed; a non-empty room rearms the
timer one interval ahead and gets the updated roster broadcast to every
surviving channel. -/
theorem claim_C3 (fuel now : Nat) (env : ExternalEnv) (m : RoomModel)
    (mid rc : String)
    (hnf : ∀ c ∈ m.conns, c.sendFails = false)
    (hmid : m.storage.meetingId = some mid)
    (hrc : m.storage.roomCode = some rc)
    (halarm : m.alarm = none) :
    ((m.storage.sessions.filter
        (fun p => !(isStale (lookupHeartbeat m.storage p.1) now))).length = 0 →
      (alarmHandler fuel env now m).1.storage = emptyStorage ∧
      (alarmHandler fuel env now m).1.alarm = none ∧
      Effect.report rc 0 "done" ∈ (alarmHandler fuel env now m).2) ∧
    ((m.storage.sessions.filter
        (fun p => !(isStale (lookupHeartbeat m.storage p.1) now))).length ≠ 0 →
      (alarmHandler fuel env now m).1.alarm = some (now + alarmInterval) ∧
      ∀ c ∈ (alarmHandler fuel env now m).1.conns,
        Effect.send c.id (ServerMessage.roomState mid
          ((alarmHandler fuel env now m).1.storage.sessions.map Prod.snd)) ∈
          (alarmHandler fuel env now m).2) := by
  obtain ⟨⟨ihb, imid, irc, ial⟩, isess, iconn, ieff⟩ :=
    cleanupLoop_spec fuel now m.conns m.storage.sessions m hnf
  have hok : ∀ c ∈ (cleanupLoop fuel now m.conns m.storage.sessions m).1.conns,
      c.sendFails = false := fun c hc => (iconn c hc).2
  have hsess : (cleanupLoop fuel now m.conns m.storage.sessions m).1.storage.sessions =
      m.storage.sessions.filter
        (fun p => !(isStale (lookupHeartbeat m.storage p.1) now)) := by
    rw [isess]
    exact filter_visited m.storage.sessions
      (fun x => isStale (lookupHeartbeat m.storage x) now)
  constructor
  · intro hzero
    have hcnt0 :
        (cleanupLoop fuel now m.conns m.storage.sessions m).1.storage.sessions.length = 0 := by
      rw [hsess]
      exact hzero
    have heq := cleanup_empty_shape fuel env now m mid rc hnf hmid hrc hcnt0
    have hbr := broadcastRoomState_noFail fuel
      { (cleanupLoop fuel now m.conns m.storage.sessions m).1 with
        storage := emptyStorage } (fun c hc => hok c hc)
    have halarmEnd :
        ({ (cleanupLoop fuel now m.conns m.storage.sessions m).1 with
           storage := emptyStorage } : RoomModel).alarm = none := by
      show (cleanupLoop fuel now m.conns m.storage.sessions m).1.alarm = none
      rw [ial, halarm]
    simp only [alarmHandler, heq, hbr]
    refine ⟨by simp, ?_, ?_⟩
    · simp [halarmEnd]
    · simp only [ne_eq, not_true_eq_false, if_false]
      refine List.mem_append_left _ (List.mem_append_right _ ?_)
      simp
  · intro hnz
    have hcnt :
        (cleanupLoop fuel now m.conns m.storage.sessions m).1.storage.sessions.length ≠ 0 := by
      rw [hsess]
      exact hnz
    obtain ⟨extra, heq⟩ := cleanup_surv_shape fuel env now m hnf hcnt
    have hbr := broadcastRoomState_noFail fuel
      (cleanupLoop fuel now m.conns m.storage.sessions m).1 hok
    have hmsg : roomStateMessage
        (cleanupLoop fuel now m.conns m.storage.sessions m).1.storage =
        ServerMessage.roomState mid
          ((cleanupLoop fuel now m.conns m.storage.sessions m).1.storage.sessions.map
            Prod.snd) := by
      unfold roomStateMessage
      rw [imid, hmid]
    simp only [alarmHandler, heq, hbr, hcnt]
    simp only [ne_eq, hcnt, not_false_eq_true, if_true]
    refine ⟨by trivial, ?_⟩
    intro c hc
    rw [hmsg]
    refine List.mem_append_right _ ?_
    exact List.mem_map_of_mem _ hc

/-- Witness for C3 on the concrete two-user room (non-empty branch) at the
instant the timer fires. -/
theorem claim_C3_witness :
    (∀ c ∈ mAB.conns, c.sendFails = false) ∧
    mAB.storage.meetingId = some "mid" ∧
    mAB.storage.roomCode = some "rc" ∧
    mAB.alarm = none ∧
    (((mAB.storage.sessions.filter
        (fun p => !(isStale (lookupHeartbeat mAB.storage p.1) 20000))).length = 0 →
      (alarmHandler 2 envNone 20000 mAB).1.storage = emptyStorage ∧
      (alarmHandler 2 envNone 20000 mAB).1.alarm = none ∧
      Effect.report "rc" 0 "done" ∈ (alarmHandler 2 envNone 20000 mAB).2) ∧
     ((mAB.storage.sessions.filter
        (fun p => !(isStale (lookupHeartbeat mAB.storage p.1) 20000))).length ≠ 0 →
      (alarmHandler 2 envNone 20000 mAB).1.alarm = some (20000 + alarmInterval) ∧
      ∀ c ∈ (alarmHandler 2 envNone 20000 mAB).1.conns,
        Effect.send c.id (ServerMessage.roomState "mid"
          ((alarmHandler 2 envNone 20000 mAB).1.storage.sessions.map Prod.snd)) ∈
          (alarmHandler 2 envNone 20000 mAB).2)) :=
  ⟨by decide, rfl, rfl, rfl,
    claim_C3 2 20000 envNone mAB "mid" "rc" (by decide) rfl rfl rfl⟩

end Orange
